import Mathlib

/-!
A shallow embedding of the Go package `github.com/tamnd/httpclient` and a
verification of its specification against the embedded code.

The package wraps `net/http`: a `Client` exposes `Get`, `Bytes`, `String`,
`Reader`, `JSON`, `XML` and a concurrent multi-file fetcher `Files` /
`Download`; package-level functions delegate to a process-wide default
client.  The embedding below translates those functions directly from the
source:

* bytes are `Nat`s; a Go `string` is a Lean `String`;
* the underlying `*http.Client` is modelled as a function from the requested
  URL to the transport outcome (`Transport`); redirects are not modelled, so
  the request recorded in a received response is the requested URL itself;
* a response body is a stream modelled by the bytes it delivers and the
  I/O error, if any, that reading encounters after those bytes;
* Go multiple return values `(T, error)` become pairs `T × Option GoError`,
  kept literally so that a partial result returned alongside an error is
  visible; a dynamic Go `error` value is a `GoError`, whose constructors
  record the dynamic type of the error (`*httpclient.Error` versus errors
  surfaced from the transport, the reader, or a decoder);
* the `interface{}` decode target `v` of `JSON`/`XML` is represented by what
  the two decoders (`encoding/json`, `encoding/xml`) do with a response body
  when decoding into it (`Target`);
* the goroutines of `Files` are modelled by the pure outcome of each task
  (`Client.task`, one per index of `files`, exactly as the source's
  `for i := range files` loop launches them) together with an explicit
  arrival order of the completion-channel sends; a goroutine panic
  (out-of-range `urls[i]`, or writing through a nil `files[i]`) crashes the
  whole program, modelled by the `crashed` outcomes.
-/

/-- A byte of an HTTP body (Go `byte`; values are 0..255, and no arithmetic
is ever performed on them, so `Nat` is an exact model). -/
abbrev Byte := Nat

/-- A response body stream: the bytes the stream delivers and the I/O error
text, if any, that reading hits after those bytes.  `ioutil.ReadAll` on such
a stream returns exactly `(data, readErr)`. -/
structure Body where
  data : List Byte
  readErr : Option String
deriving DecidableEq

/-- Outcome of one GET at the transport level (`http.Client.Get`): either a
transport-level error (DNS, connect, TLS, ...), or a response with a status
code and a body stream. -/
inductive GetResult
  | failure (msg : String)
  | success (statusCode : Nat) (body : Body)
deriving DecidableEq

/-- The underlying `*http.Client`, modelled as the function from the
requested URL to the transport outcome of GETting it. -/
abbrev Transport := String → GetResult

/-- The custom error type `httpclient.Error` returned from HTTP requests
(field names as in the source). -/
structure Error where
  Message : String
  StatusCode : Nat
  URL : String
deriving DecidableEq

/-- The `httpclient.File` record: a file name and its contents. -/
structure File where
  Name : String
  Data : List Byte
deriving DecidableEq

/-- An `*http.Response` as the package uses it: the status code, the URL of
the request that produced the response (`resp.Request.URL.String()`), and
the body stream. -/
structure Response where
  statusCode : Nat
  requestURL : String
  body : Body
deriving DecidableEq

/-- A Go `error` value as the package's operations can return it.  The
dynamic type of the error matters to the spec (`*httpclient.Error` versus
an error surfaced unwrapped from elsewhere), so the model keeps the
provenance as constructors:
`transport` is an error returned by `http.Client.Get` itself;
`fetchError` is the package's own `*httpclient.Error`;
`readFailed` is an error returned by `ioutil.ReadAll`;
`jsonOtherError` is a json decode error that is not a `*json.SyntaxError`
(schema/type mismatch, or an I/O error met while decoding);
`xmlError` is any xml decode error. -/
inductive GoError
  | transport (msg : String)
  | fetchError (e : Error)
  | readFailed (msg : String)
  | jsonOtherError (msg : String)
  | xmlError (msg : String)
deriving DecidableEq

/-- Whether a Go error value is the package's own `*httpclient.Error`
(a type assertion `err.(*httpclient.Error)` succeeding). -/
def GoError.isFetchError : GoError → Bool
  | .fetchError _ => true
  | _ => false

/-- The `httpclient.Client` struct: wraps an underlying HTTP client. -/
structure Client where
  client : Transport

/-- The constructor `httpclient.New`. -/
def New (client : Transport) : Client :=
  { client := client }

/-- Method `err` of `Client`: builds the package error for a response; an
empty message defaults to `Get {url} -> {status}` (via `fmt.Sprintf`). -/
def Client.err (_c : Client) (resp : Response) (message : String) : GoError :=
  .fetchError
    { Message :=
        if message = "" then
          "Get " ++ resp.requestURL ++ " -> " ++ toString resp.statusCode
        else message
      StatusCode := resp.statusCode
      URL := resp.requestURL }

/-- Method `Get` of `Client`: issues the GET through the wrapped client and
returns the response for further processing.  With redirects out of scope,
the URL recorded in the response is the requested URL. -/
def Client.Get (c : Client) (url : String) : Except String Response :=
  match c.client url with
  | .failure msg => .error msg
  | .success s b => .ok { statusCode := s, requestURL := url, body := b }

/-- Model of `ioutil.ReadAll` on a body stream: the bytes read and the error
met, if any.  On error the bytes read before the error are still returned
(Go returns both values). -/
def ReadAll (b : Body) : List Byte × Option String :=
  (b.data, b.readErr)

/-- Method `Bytes` of `Client`: fetch the URL and return the body as bytes.
Go's `([]byte, error)` return is kept literally: the first component is nil
(the empty list) on the early error paths, and the bytes `ReadAll` produced
— possibly partial — when the read itself fails. -/
def Client.Bytes (c : Client) (url : String) : List Byte × Option GoError :=
  match c.Get url with
  | .error e => ([], some (.transport e))
  | .ok resp =>
    if resp.statusCode ≠ 200 then ([], some (c.err resp ""))
    else
      let r := ReadAll resp.body
      (r.1, r.2.map .readFailed)

/-- Method `Reader` of `Client`: returns the still-open body stream; on a
non-200 status the stream is closed and the status error returned.  Go's
`(io.ReadCloser, error)` return is kept as a pair. -/
def Client.Reader (c : Client) (url : String) : Option Body × Option GoError :=
  match c.Get url with
  | .error e => (none, some (.transport e))
  | .ok resp =>
    if resp.statusCode ≠ 200 then (none, some (c.err resp ""))
    else (some resp.body, none)

/-- How `json.NewDecoder(body).Decode(v)` can end: success, a
`*json.SyntaxError`, or any other error (schema/type mismatch, or an I/O
error from the stream — those are never `*json.SyntaxError`). -/
inductive JsonResult
  | ok
  | synError
  | otherError (msg : String)
deriving DecidableEq

/-- The caller's decode target `v` (an `interface{}`), represented by what
the two decoders do with a given response body when decoding into it. -/
structure Target where
  jsonDecode : Body → JsonResult
  xmlDecode : Body → Option String

/-- Method `JSON` of `Client`: status-checked GET, then json decode; a
`*json.SyntaxError` is replaced by the package error with message
`JSON syntax error at {url}`; any other decode outcome is returned as is. -/
def Client.JSON (c : Client) (url : String) (v : Target) : Option GoError :=
  match c.Get url with
  | .error e => some (.transport e)
  | .ok resp =>
    if resp.statusCode ≠ 200 then some (c.err resp "")
    else
      match v.jsonDecode resp.body with
      | .ok => none
      | .synError => some (c.err resp ("JSON syntax error at " ++ url))
      | .otherError msg => some (.jsonOtherError msg)

/-- Method `XML` of `Client`: status-checked GET, then xml decode; decode
errors are returned as is, never wrapped. -/
def Client.XML (c : Client) (url : String) (v : Target) : Option GoError :=
  match c.Get url with
  | .error e => some (.transport e)
  | .ok resp =>
    if resp.statusCode ≠ 200 then some (c.err resp "")
    else (v.xmlDecode resp.body).map .xmlError

/-- Outcome of the goroutine launched for one index of `files` in `Files`:
either the goroutine panics — `crashed` — (an out-of-range `urls[i]`, or a
nil-pointer dereference writing `files[i].Data`), or it finishes, having
possibly written bytes into `files[i].Data`, and sends one value on the
completion channel. -/
inductive TaskOut
  | crashed
  | done (written : Option (List Byte)) (sent : Option GoError)
deriving DecidableEq

/-- The body of the goroutine `Files` launches for index `i` of `files`,
translated line by line: index `urls[i]` (panic when out of range), GET it,
forward a transport error; on a non-200 status send the status error; read
the body and write the bytes read into `files[i].Data` (panic when
`files[i]` is nil), and on a read error send `c.err(resp, err.Error())`,
else send nil. -/
def Client.task (c : Client) (urls : List String) (files : List (Option File))
    (i : Nat) : TaskOut :=
  match urls[i]? with
  | none => .crashed
  | some url =>
    match c.Get url with
    | .error e => .done none (some (.transport e))
    | .ok resp =>
      if resp.statusCode ≠ 200 then .done none (some (c.err resp ""))
      else
        match files[i]? with
        | some (some _f) =>
          let r := ReadAll resp.body
          match r.2 with
          | some msg => .done (some r.1) (some (c.err resp msg))
          | none => .done (some r.1) none
        | _ => .crashed

/-- The goroutines `Files` launches: one per index of `files`, in order
(the source's `for i := range files`). -/
def Client.tasks (c : Client) (urls : List String)
    (files : List (Option File)) : List TaskOut :=
  (List.range files.length).map (c.task urls files)

/-- The value task `i` sends on the completion channel (`none` when the
task crashes and never reaches its send). -/
def Client.signal (c : Client) (urls : List String) (files : List (Option File))
    (i : Nat) : Option GoError :=
  match c.task urls files i with
  | .done _ s => s
  | .crashed => none

/-- The files array once every task has run: slot `i` holds the bytes task
`i` wrote into `files[i].Data` — the write happens on every path that
reaches `ReadAll`, read error included — and slots of tasks that never
reached the write keep what the caller passed in. -/
def Client.finalFiles (c : Client) (urls : List String)
    (files : List (Option File)) : List (Option File) :=
  (List.range files.length).map (fun i =>
    match files[i]?, c.task urls files i with
    | some (some f), .done (some p) _ => some { f with Data := p }
    | some fo, _ => fo
    | none, _ => none)

/-- The observable result of a `Files` call: the whole program crashes on an
unrecovered goroutine panic, or the call returns an error value with the
files array left in its final state. -/
inductive FilesOutcome
  | crashed
  | result (returned : Option GoError) (finalFiles : List (Option File))
deriving DecidableEq

/-- Method `Files` of `Client`, for a given arrival order of the
completion-channel sends: `order` lists task indices in the order the drain
loop receives their sends (any permutation of the task indices can occur at
run time).  The drain loop returns the first non-nil error received, and nil
after `files.length` receives otherwise. -/
def Client.Files (c : Client) (urls : List String) (files : List (Option File))
    (order : List Nat) : FilesOutcome :=
  if TaskOut.crashed ∈ c.tasks urls files then .crashed
  else .result ((order.filterMap (c.signal urls files)).head?)
    (c.finalFiles urls files)

/-- Method `Download` of `Client`: delegates to `Files`. -/
def Client.Download (c : Client) (urls : List String) (files : List (Option File))
    (order : List Nat) : FilesOutcome :=
  c.Files urls files order

/-- Go's `string(p)` conversion of a byte slice, a byte-for-byte copy,
modelled as a code-unit map. -/
def goString (p : List Byte) : String :=
  { data := p.map Char.ofNat }

/-- Method `String` of `Client`: `Bytes`, converted to a string on
success. -/
def Client.String (c : Client) (url : String) : String × Option GoError :=
  let r := c.Bytes url
  match r.2 with
  | some e => ("", some e)
  | none => (goString r.1, none)

/-- Package-level `Get`.  The package-level functions delegate to the
process-wide default client `var client = &Client{client: &http.Client{}}`;
the default client is passed explicitly here. -/
def pkgGet (client : Client) (url : String) : Except String Response :=
  client.Get url

/-- Package-level `Bytes`: delegates to the default client's `Bytes`. -/
def pkgBytes (client : Client) (url : String) : List Byte × Option GoError :=
  client.Bytes url

/-- Package-level `String`: delegates to the default client's `String`. -/
def pkgString (client : Client) (url : String) : String × Option GoError :=
  client.String url

/-- Package-level `Reader`: delegates to the default client's `Reader`. -/
def pkgReader (client : Client) (url : String) : Option Body × Option GoError :=
  client.Reader url

/-- Package-level `JSON`: delegates to the default client's `JSON`. -/
def pkgJSON (client : Client) (url : String) (v : Target) : Option GoError :=
  client.JSON url v

/-- Package-level `XML`.  Translated exactly as written in the source: the
body is `return client.JSON(url, v)` — it delegates to the default client's
`JSON`, not its `XML`. -/
def pkgXML (client : Client) (url : String) (v : Target) : Option GoError :=
  client.JSON url v

/-- Package-level `Files`: delegates to the default client's `Files`. -/
def pkgFiles (client : Client) (urls : List String) (files : List (Option File))
    (order : List Nat) : FilesOutcome :=
  client.Files urls files order

/-- Package-level `Download`: the source delegates straight to
`client.Files`. -/
def pkgDownload (client : Client) (urls : List String) (files : List (Option File))
    (order : List Nat) : FilesOutcome :=
  client.Files urls files order

/-! Concrete fixtures used by witnesses and counterexamples. -/

/-- A transport on which every URL answers 200 with body bytes `hi`. -/
def tOK : Transport := fun _ => .success 200 { data := [104, 105], readErr := none }

/-- A transport on which every URL answers 404 with an empty body. -/
def tNotFound : Transport := fun _ => .success 404 { data := [], readErr := none }

/-- A transport on which every GET fails at the transport level. -/
def tRefused : Transport := fun _ => .failure ("connection refused")

/-- A transport on which every URL answers 200 but the body stream fails
after one byte with an unexpected-EOF read error. -/
def tReadErr : Transport :=
  fun _ => .success 200 { data := [104], readErr := some ("unexpected EOF") }

/-- A transport on which every URL answers 200 with body `<a/>` — a
well-formed XML document that is not valid JSON. -/
def tXMLBody : Transport :=
  fun _ => .success 200 { data := [60, 97, 47, 62], readErr := none }

/-- A transport answering 200 with body `A` for URL `a` and body `B` for
any other URL. -/
def tTwo : Transport := fun u =>
  if u = "a" then .success 200 { data := [65], readErr := none }
  else .success 200 { data := [66], readErr := none }

/-- A target both decoders accept. -/
def vAccepts : Target :=
  { jsonDecode := fun _ => .ok, xmlDecode := fun _ => none }

/-- A target for which the body in play is well-formed XML but malformed
JSON: the xml decoder succeeds, the json decoder hits a
`*json.SyntaxError`. -/
def vXMLNotJSON : Target :=
  { jsonDecode := fun _ => .synError, xmlDecode := fun _ => none }

/-- A target for which the body decodes as neither: the json decoder reports
a type mismatch (not a syntax error), the xml decoder reports an error. -/
def vMismatch : Target :=
  { jsonDecode := fun _ => .otherError ("json: cannot unmarshal string into Go value of type int")
    xmlDecode := fun _ => some ("expected element type <a> but have <b>") }

/-! Shared helper lemmas about the embedded operations. -/

/-- A transport-level success turns into an ok response recording the
requested URL. -/
theorem get_ok (c : Client) (url : String) (s : Nat) (b : Body)
    (h : c.client url = GetResult.success s b) :
    c.Get url = .ok { statusCode := s, requestURL := url, body := b } := by
  simp [Client.Get, h]

/-- The wrapped syntax-error message is never the empty string, so
`Client.err` keeps it instead of the default message. -/
theorem jsonSynMsg_ne_empty (url : String) : "JSON syntax error at " ++ url ≠ "" := by
  intro h
  have hd := congrArg String.data h
  rw [String.data_append] at hd
  exact absurd (List.append_eq_nil.mp hd).1 (by decide)

/-- A 200 response with a clean body read makes `Bytes` return exactly the
body bytes and no error. -/
theorem bytes_of_success (c : Client) (url : String) (b : Body)
    (hb : c.client url = GetResult.success 200 b) (hr : b.readErr = none) :
    c.Bytes url = (b.data, none) := by
  simp [Client.Bytes, get_ok c url 200 b hb, ReadAll, hr]

/-- The task for an in-range index whose URL has a transport-level error
sends that error unwrapped. -/
theorem task_eq_of_transport_error (c : Client) (urls : List String)
    (files : List (Option File)) (i : Nat) (url e : String)
    (hu : urls[i]? = some url) (hg : c.client url = GetResult.failure e) :
    c.task urls files i = .done none (some (.transport e)) := by
  simp [Client.task, hu, Client.Get, hg]

/-- The task for an index whose URL answers a non-200 status sends the
package status error. -/
theorem task_eq_of_status (c : Client) (urls : List String)
    (files : List (Option File)) (i : Nat) (url : String) (s : Nat) (b : Body)
    (hu : urls[i]? = some url) (hg : c.client url = GetResult.success s b)
    (hs : s ≠ 200) :
    c.task urls files i =
      .done none (some (c.err { statusCode := s, requestURL := url, body := b } "")) := by
  simp [Client.task, hu, Client.Get, hg, hs]

/-- The task for an index whose URL answers 200, when its file slot is
non-nil: it writes the bytes read and sends either nil or the wrapped read
error. -/
theorem task_eq_of_read (c : Client) (urls : List String)
    (files : List (Option File)) (i : Nat) (url : String) (b : Body) (f : File)
    (hu : urls[i]? = some url) (hg : c.client url = GetResult.success 200 b)
    (hfo : files[i]? = some (some f)) :
    c.task urls files i =
      match b.readErr with
      | some msg =>
          .done (some b.data)
            (some (c.err { statusCode := 200, requestURL := url, body := b } msg))
      | none => .done (some b.data) none := by
  rcases hrd : b.readErr with _ | msg <;>
    simp [Client.task, hu, Client.Get, hg, hfo, ReadAll, hrd]

/-- The task of an in-range, non-nil slot never panics. -/
theorem task_ne_crashed (c : Client) (urls : List String)
    (files : List (Option File)) (i : Nat) (url : String) (f : File)
    (hu : urls[i]? = some url) (hfo : files[i]? = some (some f)) :
    c.task urls files i ≠ .crashed := by
  rcases hg : c.client url with e | ⟨s, b⟩
  · rw [task_eq_of_transport_error c urls files i url e hu hg]
    simp
  · by_cases hs : s = 200
    · subst hs
      rw [task_eq_of_read c urls files i url b f hu hg hfo]
      cases b.readErr <;> simp
    · rw [task_eq_of_status c urls files i url s b hu hg hs]
      simp

/-- The launched-task list, slot by slot. -/
theorem tasks_getElem? (c : Client) (urls : List String)
    (files : List (Option File)) (i : Nat) (hi : i < files.length) :
    (c.tasks urls files)[i]? = some (c.task urls files i) := by
  simp [Client.tasks, List.getElem?_map, List.getElem?_range hi]

/-! The claims. -/

/-- C1: the claim says the package-level `XML(url, v)` deserializes the
response body as XML, behaving like the client method `XML`.  The code
contradicts this (and its own doc comment): `pkgXML` delegates to the
client's `JSON`, so a 200 response whose body is well-formed XML but not
JSON makes `pkgXML` fail with the wrapped JSON syntax error while
`Client.XML` succeeds. -/
theorem C1_pkgXML_decodes_body_as_json :
    pkgXML (New tXMLBody) ("http://x") vXMLNotJSON =
      some (.fetchError
        { Message := "JSON syntax error at http://x", StatusCode := 200, URL := "http://x" }) ∧
    Client.XML (New tXMLBody) ("http://x") vXMLNotJSON = none ∧
    pkgXML (New tXMLBody) ("http://x") vXMLNotJSON =
      Client.JSON (New tXMLBody) ("http://x") vXMLNotJSON := by
  refine ⟨by decide, rfl, rfl⟩

/-- C2: for every URL whose GET succeeds at the transport level with a
status code other than 200, each read operation (`Bytes`, `String`,
`Reader`, `JSON`, `XML`) fails with the package error carrying exactly that
status code, the requested URL, and the message `Get {url} -> {status}`. -/
theorem C2_non200_uniform_status_error (c : Client) (url : String) (s : Nat)
    (b : Body) (v : Target) (hres : c.client url = GetResult.success s b)
    (hs : s ≠ 200) :
    c.Bytes url =
      ([], some (.fetchError ⟨"Get " ++ url ++ " -> " ++ toString s, s, url⟩)) ∧
    c.String url =
      ("", some (.fetchError ⟨"Get " ++ url ++ " -> " ++ toString s, s, url⟩)) ∧
    c.Reader url =
      (none, some (.fetchError ⟨"Get " ++ url ++ " -> " ++ toString s, s, url⟩)) ∧
    c.JSON url v =
      some (.fetchError ⟨"Get " ++ url ++ " -> " ++ toString s, s, url⟩) ∧
    c.XML url v =
      some (.fetchError ⟨"Get " ++ url ++ " -> " ++ toString s, s, url⟩) := by
  have hget := get_ok c url s b hres
  have hB : c.Bytes url =
      ([], some (.fetchError ⟨"Get " ++ url ++ " -> " ++ toString s, s, url⟩)) := by
    simp [Client.Bytes, hget, Client.err, hs]
  refine ⟨hB, ?_, ?_, ?_, ?_⟩
  · simp [Client.String, hB]
  · simp [Client.Reader, hget, Client.err, hs]
  · simp [Client.JSON, hget, Client.err, hs]
  · simp [Client.XML, hget, Client.err, hs]

/-- C2 witness: the status-404 transport, evaluated at a concrete URL. -/
theorem C2_non200_uniform_status_error_w :
    Client.Bytes (New tNotFound) ("http://x") =
      ([], some (.fetchError ⟨"Get " ++ "http://x" ++ " -> " ++ toString 404, 404, "http://x"⟩)) ∧
    Client.String (New tNotFound) ("http://x") =
      ("", some (.fetchError ⟨"Get " ++ "http://x" ++ " -> " ++ toString 404, 404, "http://x"⟩)) ∧
    Client.Reader (New tNotFound) ("http://x") =
      (none, some (.fetchError ⟨"Get " ++ "http://x" ++ " -> " ++ toString 404, 404, "http://x"⟩)) ∧
    Client.JSON (New tNotFound) ("http://x") vAccepts =
      some (.fetchError ⟨"Get " ++ "http://x" ++ " -> " ++ toString 404, 404, "http://x"⟩) ∧
    Client.XML (New tNotFound) ("http://x") vAccepts =
      some (.fetchError ⟨"Get " ++ "http://x" ++ " -> " ++ toString 404, 404, "http://x"⟩) :=
  C2_non200_uniform_status_error (New tNotFound) ("http://x") 404
    { data := [], readErr := none } vAccepts rfl (by decide)

/-- C3 counterexample: at a 200 response with a malformed-JSON body, the
FetchError's message is `JSON syntax error at {url}` — it contains the URL
but not the received status code (200 here), refuting the claim that the
message includes both. -/
theorem C3_cex_message_lacks_status :
    Client.JSON (New tXMLBody) ("http://x") vXMLNotJSON =
      some (.fetchError
        { Message := "JSON syntax error at http://x", StatusCode := 200, URL := "http://x" }) ∧
    ¬ (toString 200).data <:+: ("JSON syntax error at http://x" : String).data := by
  exact ⟨by decide, by decide⟩

/-- C3 (amended): for a 200 response whose body is malformed JSON, `JSON`
fails with a FetchError whose message includes the URL (the message is
exactly `JSON syntax error at {url}`) and whose StatusCode/URL fields hold
the received status and URL; the status code is carried in the StatusCode
field, not in the message text. -/
theorem C3_json_syntax_error_wrapped (c : Client) (url : String) (b : Body)
    (v : Target) (hres : c.client url = GetResult.success 200 b)
    (hdec : v.jsonDecode b = JsonResult.synError) :
    c.JSON url v =
      some (.fetchError ⟨"JSON syntax error at " ++ url, 200, url⟩) ∧
    url.data <:+: ("JSON syntax error at " ++ url).data := by
  have hget := get_ok c url 200 b hres
  constructor
  · simp [Client.JSON, hget, hdec, Client.err, jsonSynMsg_ne_empty]
  · rw [String.data_append]
    exact List.IsSuffix.isInfix (List.suffix_append _ _)

/-- C3 witness: the malformed-JSON fixture, evaluated at a concrete URL. -/
theorem C3_json_syntax_error_wrapped_w :
    Client.JSON (New tXMLBody) ("http://x") vXMLNotJSON =
      some (.fetchError ⟨"JSON syntax error at " ++ "http://x", 200, "http://x"⟩) ∧
    ("http://x" : String).data <:+: ("JSON syntax error at " ++ "http://x").data :=
  C3_json_syntax_error_wrapped (New tXMLBody) ("http://x")
    { data := [60, 97, 47, 62], readErr := none } vXMLNotJSON rfl rfl

/-- C4: a decode failure that is not a JSON syntax error — a json
schema/type mismatch in `JSON`, or any decode failure in `XML` — is
returned as the decoder's own error, not wrapped into a FetchError. -/
theorem C4_other_decode_errors_unwrapped (c : Client) (url : String) (b : Body)
    (v : Target) (hres : c.client url = GetResult.success 200 b) :
    (∀ msg, v.jsonDecode b = JsonResult.otherError msg →
      c.JSON url v = some (.jsonOtherError msg) ∧
      (GoError.jsonOtherError msg).isFetchError = false) ∧
    (∀ msg, v.xmlDecode b = some msg →
      c.XML url v = some (.xmlError msg) ∧
      (GoError.xmlError msg).isFetchError = false) := by
  have hget := get_ok c url 200 b hres
  constructor
  · intro msg hdec
    exact ⟨by simp [Client.JSON, hget, hdec], rfl⟩
  · intro msg hdec
    exact ⟨by simp [Client.XML, hget, hdec], rfl⟩

/-- C4 witness: the mismatching target, evaluated on a 200 response. -/
theorem C4_other_decode_errors_unwrapped_w :
    Client.JSON (New tXMLBody) ("http://x") vMismatch =
      some (.jsonOtherError ("json: cannot unmarshal string into Go value of type int")) ∧
    Client.XML (New tXMLBody) ("http://x") vMismatch =
      some (.xmlError ("expected element type <a> but have <b>")) := by
  obtain ⟨hj, hx⟩ := C4_other_decode_errors_unwrapped (New tXMLBody) ("http://x")
    { data := [60, 97, 47, 62], readErr := none } vMismatch rfl
  exact ⟨(hj _ rfl).1, (hx _ rfl).1⟩

/-- C5 counterexample: with an input URL sequence of length 1 but an empty
files slice, `Files` launches zero tasks, not one per URL — the loop ranges
over `files`, not `urls`. -/
theorem C5_cex_task_count_follows_files :
    (Client.tasks (New tOK) (["a"]) ([] : List (Option File))).length = 0 ∧
    (["a"] : List String).length = 1 := by
  decide

/-- C5 (amended): `Files` launches exactly `len(files)` concurrent tasks,
one per index i in [0, len(files)) of the files slice (task i fetches
urls[i]); the result sequence is supplied by the caller, not allocated by
`Files` — only the completion channel is allocated, with capacity
`len(files)`. -/
theorem C5_one_task_per_files_index (c : Client) (urls : List String)
    (files : List (Option File)) :
    (c.tasks urls files).length = files.length ∧
    ∀ i, i < files.length →
      (c.tasks urls files)[i]? = some (c.task urls files i) := by
  constructor
  · simp [Client.tasks]
  · intro i hi
    exact tasks_getElem? c urls files i hi

/-- C5 witness: one file slot, one task. -/
theorem C5_one_task_per_files_index_w :
    (Client.tasks (New tOK) (["a"]) [some { Name := "f", Data := [] }]).length = 1 ∧
    (Client.tasks (New tOK) (["a"]) [some { Name := "f", Data := [] }])[0]? =
      some (Client.task (New tOK) (["a"]) [some { Name := "f", Data := [] }] 0) := by
  obtain ⟨h1, h2⟩ :=
    C5_one_task_per_files_index (New tOK) (["a"]) [some { Name := "f", Data := [] }]
  exact ⟨h1, h2 0 (by decide)⟩

/-- C6 counterexample: with an empty URL list but a nonempty files slice, a
task is launched and it panics on the out-of-range `urls[0]` — `Files` does
not return success, refuting the claim read over every call with an empty
URL list.  The number of tasks follows `files`, not `urls`. -/
theorem C6_cex_empty_urls_nonempty_files :
    Client.tasks (New tOK) ([] : List String) [some { Name := "f", Data := [] }] ≠ [] ∧
    Client.Files (New tOK) ([] : List String) [some { Name := "f", Data := [] }] [0] =
      .crashed := by
  decide

/-- C6 (amended): for an empty files slice, `Files` and `Download` launch no
tasks and immediately return success (a nil error) with the empty files
slice unchanged, whatever the URL list. -/
theorem C6_empty_files_no_tasks (c : Client) (urls : List String) :
    Client.tasks c urls ([] : List (Option File)) = [] ∧
    c.Files urls ([] : List (Option File)) [] = .result none [] ∧
    c.Download urls ([] : List (Option File)) [] = .result none [] := by
  refine ⟨rfl, ?_, ?_⟩ <;>
    simp [Client.Files, Client.Download, Client.tasks, Client.finalFiles]

/-- C7: in a batch where the files slice matches the URL list, every slot is
non-nil and every URL answers 200 with a clean body read, `Files` returns
success and slot i of the final files state holds exactly the body bytes of
urls[i] — the bytes a sequential `Bytes(urls[i])` call returns — for every
arrival order of the task completions. -/
theorem C7_positional_alignment (c : Client) (urls : List String)
    (files : List (Option File)) (order : List Nat)
    (hlen : files.length = urls.length)
    (hord : order.Perm (List.range files.length))
    (hfiles : ∀ fo ∈ files, ∃ f, fo = some f)
    (hurls : ∀ url ∈ urls, ∃ b, c.client url = GetResult.success 200 b ∧ b.readErr = none) :
    c.Files urls files order = .result none (c.finalFiles urls files) ∧
    ∀ (i : Nat) (f : File) (url : String),
      files[i]? = some (some f) → urls[i]? = some url →
      (c.finalFiles urls files)[i]? =
        some (some { Name := f.Name, Data := (c.Bytes url).1 }) ∧
      (c.Bytes url).2 = none := by
  have hTask : ∀ i, i < files.length → ∃ b url, urls[i]? = some url ∧
      c.client url = GetResult.success 200 b ∧ b.readErr = none ∧
      c.task urls files i = .done (some b.data) none := by
    intro i hi
    have hi' : i < urls.length := hlen ▸ hi
    obtain ⟨f, hf⟩ := hfiles (files[i]) (List.getElem_mem hi)
    have hfo : files[i]? = some (some f) := by
      rw [List.getElem?_eq_getElem hi, hf]
    have hu : urls[i]? = some (urls[i]) := List.getElem?_eq_getElem hi'
    obtain ⟨b, hb, hr⟩ := hurls (urls[i]) (List.getElem_mem hi')
    refine ⟨b, urls[i], hu, hb, hr, ?_⟩
    rw [task_eq_of_read c urls files i (urls[i]) b f hu hb hfo, hr]
  have hNoCrash : TaskOut.crashed ∉ c.tasks urls files := by
    intro hmem
    simp only [Client.tasks, List.mem_map, List.mem_range] at hmem
    obtain ⟨i, hi, hcr⟩ := hmem
    obtain ⟨b, url, _, _, _, ht⟩ := hTask i hi
    rw [ht] at hcr
    exact TaskOut.noConfusion hcr
  have hSignals : ∀ i ∈ order, c.signal urls files i = none := by
    intro i hio
    have hi : i < files.length := List.mem_range.mp (hord.mem_iff.mp hio)
    obtain ⟨b, url, _, _, _, ht⟩ := hTask i hi
    simp [Client.signal, ht]
  have hFirst : (order.filterMap (c.signal urls files)).head? = none := by
    rw [List.filterMap_eq_nil_iff.mpr hSignals]
    rfl
  constructor
  · simp only [Client.Files, if_neg hNoCrash, hFirst]
  · intro i f url hf hu
    have hi : i < files.length := (List.getElem?_eq_some.mp hf).1
    obtain ⟨b, url', hu', hb, hr, ht⟩ := hTask i hi
    have huu : url' = url := Option.some.inj (hu'.symm.trans hu)
    subst huu
    have hby := bytes_of_success c _ b hb hr
    constructor
    · simp only [Client.finalFiles, List.getElem?_map, List.getElem?_range hi,
        Option.map_some']
      simp [hf, ht, hby]
    · rw [hby]

/-- C7 witness: two URLs with distinct bodies, drained in reverse order. -/
theorem C7_positional_alignment_w :
    Client.Files (New tTwo) (["a", "b"])
        [some { Name := "x", Data := [] }, some { Name := "y", Data := [] }] [1, 0] =
      .result none (Client.finalFiles (New tTwo) (["a", "b"])
        [some { Name := "x", Data := [] }, some { Name := "y", Data := [] }]) ∧
    (Client.finalFiles (New tTwo) (["a", "b"])
        [some { Name := "x", Data := [] }, some { Name := "y", Data := [] }])[0]? =
      some (some { Name := "x", Data := (Client.Bytes (New tTwo) ("a")).1 }) ∧
    (Client.finalFiles (New tTwo) (["a", "b"])
        [some { Name := "x", Data := [] }, some { Name := "y", Data := [] }])[1]? =
      some (some { Name := "y", Data := (Client.Bytes (New tTwo) ("b")).1 }) ∧
    (Client.Bytes (New tTwo) ("a")).2 = none := by
  have h := C7_positional_alignment (New tTwo) (["a", "b"])
    [some { Name := "x", Data := [] }, some { Name := "y", Data := [] }] [1, 0]
    (by decide) (by decide)
    (by
      intro fo hfo
      rcases List.mem_cons.mp hfo with h0 | hfo
      · exact ⟨_, h0⟩
      rcases List.mem_cons.mp hfo with h1 | hfo
      · exact ⟨_, h1⟩
      · exact absurd hfo (List.not_mem_nil _))
    (by
      intro url hurl
      rcases List.mem_cons.mp hurl with h0 | hurl
      · subst h0
        exact ⟨{ data := [65], readErr := none }, by decide, rfl⟩
      rcases List.mem_cons.mp hurl with h1 | hurl
      · subst h1
        exact ⟨{ data := [66], readErr := none }, by decide, rfl⟩
      · exact absurd hurl (List.not_mem_nil _))
  refine ⟨h.1, (h.2 0 { Name := "x", Data := [] } ("a") rfl rfl).1,
    (h.2 1 { Name := "y", Data := [] } ("b") rfl rfl).1,
    (h.2 0 { Name := "x", Data := [] } ("a") rfl rfl).2⟩

/-- C8 counterexample: a body-read failure after a 200 response makes
`Bytes` return the read error unwrapped — not a FetchError — together with
the partially read bytes, refuting both halves of the claim. -/
theorem C8_cex_read_error_unwrapped :
    Client.Bytes (New tReadErr) ("http://x") =
      ([104], some (.readFailed ("unexpected EOF"))) ∧
    (GoError.readFailed ("unexpected EOF")).isFetchError = false ∧
    (Client.Bytes (New tReadErr) ("http://x")).1 ≠ [] := by
  decide

/-- C8 (amended): failures are FetchError on the status-check path (and, by
C3, on the JSON-syntax path); a transport-level failure surfaces the
transport's error unwrapped, and a body-read failure surfaces the reader's
error unwrapped — with `Bytes` returning the bytes read so far alongside
it. -/
theorem C8_error_taxonomy (c : Client) (url : String) :
    (∀ m, c.client url = GetResult.failure m →
      c.Bytes url = ([], some (.transport m)) ∧
      (GoError.transport m).isFetchError = false) ∧
    (∀ s b, c.client url = GetResult.success s b → s ≠ 200 →
      ∃ e, (c.Bytes url).2 = some e ∧ e.isFetchError = true) ∧
    (∀ b msg, c.client url = GetResult.success 200 b → b.readErr = some msg →
      c.Bytes url = (b.data, some (.readFailed msg)) ∧
      (GoError.readFailed msg).isFetchError = false) := by
  refine ⟨?_, ?_, ?_⟩
  · intro m hm
    have hget : c.Get url = .error m := by simp [Client.Get, hm]
    exact ⟨by simp [Client.Bytes, hget], rfl⟩
  · intro s b hres hs
    refine ⟨c.err { statusCode := s, requestURL := url, body := b } "", ?_, rfl⟩
    simp [Client.Bytes, get_ok c url s b hres, hs]
  · intro b msg hres hrd
    exact ⟨by simp [Client.Bytes, get_ok c url 200 b hres, ReadAll, hrd], rfl⟩

/-- C8 witness: the read-failure transport, evaluated at a concrete URL. -/
theorem C8_error_taxonomy_w :
    Client.Bytes (New tReadErr) ("u") =
      ([104], some (.readFailed ("unexpected EOF"))) ∧
    (GoError.readFailed ("unexpected EOF")).isFetchError = false :=
  (C8_error_taxonomy (New tReadErr) ("u")).2.2
    { data := [104], readErr := some ("unexpected EOF") } ("unexpected EOF") rfl rfl

/-- C9: `Files(urls, files)` is panic-free under the precondition that
`len(urls) >= len(files)` and every element of `files` is non-nil — no
launched task panics, for every transport and arrival order — and the
precondition is needed: whenever it fails, some transport makes a launched
task panic (an out-of-range `urls[i]` when `files` is longer than `urls`, a
nil dereference writing `files[i].Data` on the success path otherwise), and
the whole `Files` call crash. -/
theorem C9_files_panic_freedom (urls : List String) (files : List (Option File)) :
    ((urls.length ≥ files.length ∧ ∀ fo ∈ files, ∃ f, fo = some f) →
      ∀ (c : Client) (i : Nat), i < files.length →
        c.task urls files i ≠ .crashed) ∧
    ((urls.length ≥ files.length ∧ ∀ fo ∈ files, ∃ f, fo = some f) →
      ∀ (c : Client) (order : List Nat), c.Files urls files order ≠ .crashed) ∧
    (¬ (urls.length ≥ files.length ∧ ∀ fo ∈ files, ∃ f, fo = some f) →
      ∃ (c : Client) (i : Nat), i < files.length ∧
        c.task urls files i = .crashed ∧
        ∀ order, c.Files urls files order = .crashed) := by
  have hTaskSafe : (urls.length ≥ files.length ∧ ∀ fo ∈ files, ∃ f, fo = some f) →
      ∀ (c : Client) (i : Nat), i < files.length → c.task urls files i ≠ .crashed := by
    rintro ⟨hge, hnn⟩ c i hi
    have hi' : i < urls.length := lt_of_lt_of_le hi hge
    obtain ⟨f, hf⟩ := hnn (files[i]) (List.getElem_mem hi)
    have hfo : files[i]? = some (some f) := by
      rw [List.getElem?_eq_getElem hi, hf]
    exact task_ne_crashed c urls files i (urls[i]) f (List.getElem?_eq_getElem hi') hfo
  refine ⟨hTaskSafe, ?_, ?_⟩
  · intro hpre c order
    have hnc : TaskOut.crashed ∉ c.tasks urls files := by
      intro hmem
      simp only [Client.tasks, List.mem_map, List.mem_range] at hmem
      obtain ⟨i, hi, hcr⟩ := hmem
      exact hTaskSafe hpre c i hi hcr
    simp [Client.Files, hnc]
  · intro hneg
    have hcrash : ∀ (c : Client) (i : Nat), i < files.length →
        c.task urls files i = .crashed →
        ∀ order, c.Files urls files order = .crashed := by
      intro c i hi hcr order
      have hmem : TaskOut.crashed ∈ c.tasks urls files := by
        rw [← hcr]
        exact List.getElem?_mem (tasks_getElem? c urls files i hi)
      simp [Client.Files, hmem]
    rcases not_and_or.mp hneg with hlt | hex
    · have hlt' : urls.length < files.length := Nat.lt_of_not_le hlt
      refine ⟨New tRefused, urls.length, hlt', ?_, ?_⟩
      · have hnone : urls[urls.length]? = none := List.getElem?_eq_none (le_refl _)
        simp [Client.task, hnone]
      · apply hcrash _ _ hlt'
        have hnone : urls[urls.length]? = none := List.getElem?_eq_none (le_refl _)
        simp [Client.task, hnone]
    · push_neg at hex
      obtain ⟨fo, hmem, hfo⟩ := hex
      have hfo' : fo = none := by
        cases fo with
        | none => rfl
        | some f => exact absurd rfl (hfo f)
      subst hfo'
      obtain ⟨i, hi, hieq⟩ := List.getElem_of_mem hmem
      have hslot : files[i]? = some none := by
        rw [List.getElem?_eq_getElem hi, hieq]
      by_cases hiu : i < urls.length
      · have hu : urls[i]? = some (urls[i]) := List.getElem?_eq_getElem hiu
        have hcr : (New tOK).task urls files i = .crashed := by
          simp [Client.task, hu, Client.Get, tOK, New, hslot]
        exact ⟨New tOK, i, hi, hcr, hcrash _ _ hi hcr⟩
      · have hnone : urls[i]? = none :=
          List.getElem?_eq_none (Nat.le_of_not_lt hiu)
        have hcr : (New tOK).task urls files i = .crashed := by
          simp [Client.task, hnone]
        exact ⟨New tOK, i, hi, hcr, hcrash _ _ hi hcr⟩

/-- C9 witness: the precondition holds for one URL and one non-nil slot, so
neither the task nor the whole call crashes. -/
theorem C9_files_panic_freedom_w :
    Client.task (New tOK) (["a"]) [some { Name := "f", Data := [] }] 0 ≠ .crashed ∧
    Client.Files (New tOK) (["a"]) [some { Name := "f", Data := [] }] [0] ≠ .crashed := by
  have h := C9_files_panic_freedom (["a"]) [some { Name := "f", Data := [] }]
  have hpre : (["a"] : List String).length ≥
      ([some { Name := "f", Data := [] }] : List (Option File)).length ∧
      ∀ fo ∈ ([some { Name := "f", Data := [] }] : List (Option File)), ∃ f, fo = some f := by
    refine ⟨by decide, ?_⟩
    intro fo hfo
    exact ⟨_, List.mem_singleton.mp hfo⟩
  exact ⟨h.1 hpre (New tOK) 0 (by decide), h.2.1 hpre (New tOK) [0]⟩

/-- C10: in a batch, a task that got a 200 response but whose body read
fails sends a FetchError whose message is the I/O error's text and whose
StatusCode/URL come from the response — while the single-request `Bytes`
returns the same read error unwrapped (alongside the partial bytes). -/
theorem C10_batch_read_error_wrapped (c : Client) (urls : List String)
    (files : List (Option File)) (i : Nat) (url : String) (f : File) (b : Body)
    (msg : String) (hu : urls[i]? = some url) (hfo : files[i]? = some (some f))
    (hb : c.client url = GetResult.success 200 b) (hrd : b.readErr = some msg)
    (hmsg : msg ≠ "") :
    c.task urls files i =
      .done (some b.data) (some (.fetchError ⟨msg, 200, url⟩)) ∧
    c.Bytes url = (b.data, some (.readFailed msg)) := by
  constructor
  · rw [task_eq_of_read c urls files i url b f hu hb hfo, hrd]
    simp [Client.err, hmsg]
  · simp [Client.Bytes, get_ok c url 200 b hb, ReadAll, hrd]

/-- C10 witness: the read-failure transport in a one-element batch. -/
theorem C10_batch_read_error_wrapped_w :
    Client.task (New tReadErr) (["u"]) [some { Name := "f", Data := [] }] 0 =
      .done (some [104]) (some (.fetchError ⟨"unexpected EOF", 200, "u"⟩)) ∧
    Client.Bytes (New tReadErr) ("u") =
      ([104], some (.readFailed ("unexpected EOF"))) :=
  C10_batch_read_error_wrapped (New tReadErr) (["u"]) [some { Name := "f", Data := [] }]
    0 ("u") { Name := "f", Data := [] } { data := [104], readErr := some ("unexpected EOF") }
    ("unexpected EOF") rfl rfl rfl rfl (by decide)
